import Mathlib

set_option maxRecDepth 4000
set_option maxHeartbeats 1000000

/-!
Formal model of the quiz-chain driver implemented in `src/receive_request.py`.

The pure helpers of the source file (`safe_json_load`, `call_aipipe_for_answer`
content handling, `extract_base64_from_html`, `decode_base64_to_html`,
`find_submit_url_in_html`) are embedded directly as Lean functions over
`List Char` / `String`.  Calls into third-party libraries are modelled as
follows:

* `json.loads` is modelled by `jsonParse`, a JSON parser following Python's
  `json` module grammar (including the `NaN`/`Infinity` constants; floating
  point numbers are carried as their literal text, since the program never
  computes with them; a lone `\u` surrogate, which CPython would keep as a
  surrogate code unit, is replaced by U+FFFD because Lean `Char` holds only
  scalar values).
* `base64.b64decode` is modelled by `b64decodeBytesStr` for properly padded
  input: non-alphabet characters are discarded first (as with
  `validate=False`), and malformed padding yields `none` (the Python call
  raises, which `decode_base64_to_html` turns into `None`).
* `bytes.decode("utf-8", errors="replace")` is modelled by `utf8Decode`,
  replacing each maximal invalid subpart with U+FFFD.
* `BeautifulSoup`-based question extraction (`extract_question_text`) is an
  external HTML library call; the driver model carries it as the
  `extractQuestion` field of the environment.
* Whitespace sets are the ASCII ones (`str.strip`, regex `\s`, and JSON each
  use their own set, modelled separately).

The `process_request` loop is modelled as a deterministic function of an
environment that supplies the network responses (GET bodies, oracle answers,
POST responses) per iteration, together with a fuel bound; every terminal
`break`/`return` of the Python loop is labelled by an `Outcome` constructor.
-/

/-- Double-quote character, kept out of literals for the sake of clarity. -/
def qCh : Char := Char.ofNat 34

/-- Single-quote character. -/
def sqCh : Char := Char.ofNat 39

/-- Backtick character. -/
def btCh : Char := Char.ofNat 96

/-- Left-brace character. -/
def lbCh : Char := Char.ofNat 123

/-- Right-brace character. -/
def rbCh : Char := Char.ofNat 125

/-- ASCII whitespace recognised by Python `str.strip()` and by the regex
class `\s` (the Unicode additions are not exercised by this program). -/
def isPySpace (c : Char) : Bool :=
  c = ' ' || c = '\t' || c = '\n' || c = '\r' || c = Char.ofNat 11 || c = Char.ofNat 12

/-- Whitespace recognised by the JSON grammar of Python's `json` module. -/
def jsonWs (c : Char) : Bool :=
  c = ' ' || c = '\t' || c = '\n' || c = '\r'

/-- Drop characters satisfying `p` from both ends of a list. -/
def stripEnds (p : Char → Bool) (l : List Char) : List Char :=
  ((l.dropWhile p).reverse.dropWhile p).reverse

/-- Python `str.strip()` (ASCII whitespace). -/
def pyStrip (s : String) : String := String.mk (stripEnds isPySpace s.data)

/-- Python `str.strip(chars)`. -/
def pyStripChars (cs : List Char) (s : String) : String :=
  String.mk (stripEnds (fun c => cs.contains c) s.data)

/-- Python `str.lower()` (ASCII case fold suffices here). -/
def pyLower (s : String) : String := String.mk (s.data.map Char.toLower)

/-- Dynamic JSON value as produced by Python's `json.loads`.  Floating point
numbers are kept as their literal text; the program never does arithmetic on
them. -/
inductive JValue where
  | null
  | bool (b : Bool)
  | int (n : Int)
  | float (lit : String)
  | str (s : String)
  | arr (xs : List JValue)
  | obj (fields : List (String × JValue))

/-- Python exception classes that the modelled code can raise. -/
inductive PyErr where
  | typeError
  | valueError
  | keyError
  | httpError
deriving DecidableEq

/-- Insertion into a Python dict: an existing key keeps its position but its
value is replaced (this is how `json.loads` treats duplicate object keys —
the last value wins). -/
def objInsert (fs : List (String × JValue)) (k : String) (v : JValue) :
    List (String × JValue) :=
  if fs.any (fun pr => pr.1 == k) then
    fs.map (fun pr => if pr.1 == k then (k, v) else pr)
  else fs ++ [(k, v)]

/-- Dict lookup. -/
def objGet (fs : List (String × JValue)) (k : String) : Option JValue :=
  (fs.find? (fun pr => pr.1 == k)).map (fun pr => pr.2)

/-- Hexadecimal digit value. -/
def hexVal (c : Char) : Option Nat :=
  if c.isDigit then some (c.toNat - 48)
  else if 'a' ≤ c && c ≤ 'f' then some (c.toNat - 87)
  else if 'A' ≤ c && c ≤ 'F' then some (c.toNat - 55)
  else none

/-- JSON string escape characters other than `\u`. -/
def escChar (e : Char) : Option Char :=
  if e = qCh then some qCh
  else if e = '\\' then some '\\'
  else if e = '/' then some '/'
  else if e = 'b' then some (Char.ofNat 8)
  else if e = 'f' then some (Char.ofNat 12)
  else if e = 'n' then some (Char.ofNat 10)
  else if e = 'r' then some (Char.ofNat 13)
  else if e = 't' then some (Char.ofNat 9)
  else none

/-- Parse the remainder of a JSON string (the opening quote has been
consumed); returns the content characters and the input after the closing
quote.  Raw control characters are rejected as in Python's (strict) decoder;
`\u` surrogate pairs are combined; a lone surrogate becomes U+FFFD.  The fuel
is only a termination device: every recursive call consumes at least one
input character, so `length + 1` (supplied by the wrapper `pjStr`) is ample. -/
def pjStrF : Nat → List Char → Option (List Char × List Char)
  | 0, _ => none
  | _, [] => none
  | f + 1, c :: rest =>
    if c = qCh then some ([], rest)
    else if c = '\\' then
      match rest with
      | [] => none
      | e :: rest2 =>
        if e = 'u' then
          match rest2 with
          | h1 :: h2 :: h3 :: h4 :: rest3 =>
            match hexVal h1, hexVal h2, hexVal h3, hexVal h4 with
            | some v1, some v2, some v3, some v4 =>
              let n := ((v1 * 16 + v2) * 16 + v3) * 16 + v4
              if 55296 ≤ n && n ≤ 56319 then
                match rest3 with
                | e2 :: u2 :: g1 :: g2 :: g3 :: g4 :: rest4 =>
                  match hexVal g1, hexVal g2, hexVal g3, hexVal g4 with
                  | some w1, some w2, some w3, some w4 =>
                    let m := ((w1 * 16 + w2) * 16 + w3) * 16 + w4
                    if e2 = '\\' && u2 = 'u' && (56320 ≤ m && m ≤ 57343) then
                      match pjStrF f rest4 with
                      | some (s, r) =>
                          some (Char.ofNat (65536 + (n - 55296) * 1024 + (m - 56320)) :: s, r)
                      | none => none
                    else
                      match pjStrF f rest3 with
                      | some (s, r) => some (Char.ofNat 65533 :: s, r)
                      | none => none
                  | _, _, _, _ =>
                    match pjStrF f rest3 with
                    | some (s, r) => some (Char.ofNat 65533 :: s, r)
                    | none => none
                | _ =>
                  match pjStrF f rest3 with
                  | some (s, r) => some (Char.ofNat 65533 :: s, r)
                  | none => none
              else if 56320 ≤ n && n ≤ 57343 then
                match pjStrF f rest3 with
                | some (s, r) => some (Char.ofNat 65533 :: s, r)
                | none => none
              else
                match pjStrF f rest3 with
                | some (s, r) => some (Char.ofNat n :: s, r)
                | none => none
            | _, _, _, _ => none
          | _ => none
        else
          match escChar e with
          | some ec =>
            match pjStrF f rest2 with
            | some (s, r) => some (ec :: s, r)
            | none => none
          | none => none
    else if c.toNat < 32 then none
    else
      match pjStrF f rest with
      | some (s, r) => some (c :: s, r)
      | none => none

/-- Wrapper supplying sufficient fuel for `pjStrF`. -/
def pjStr (l : List Char) : Option (List Char × List Char) :=
  pjStrF (l.length + 1) l

/-- Decimal value of a digit list. -/
def digitsVal (l : List Char) : Nat :=
  l.foldl (fun a c => a * 10 + (c.toNat - 48)) 0

/-- Parse a JSON number per Python's `json` grammar
`-?(0|[1-9]\d*)(\.\d+)?([eE][-+]?\d+)?`; integers become `.int`, anything
with a fraction or exponent becomes `.float` carrying its literal text. -/
def pjNum (l : List Char) : Option (JValue × List Char) :=
  let p := match l with
    | '-' :: r => (true, r)
    | _ => (false, l)
  let neg := p.1
  let l1 := p.2
  let ip : Option (List Char × List Char) := match l1 with
    | '0' :: r => some (['0'], r)
    | c :: r => if c.isDigit then some (c :: r.takeWhile Char.isDigit, r.dropWhile Char.isDigit) else none
    | [] => none
  match ip with
  | none => none
  | some (ids, r1) =>
    let fp : List Char × List Char := match r1 with
      | '.' :: rr =>
        let ds := rr.takeWhile Char.isDigit
        if ds.isEmpty then ([], r1) else ('.' :: ds, rr.dropWhile Char.isDigit)
      | _ => ([], r1)
    let frac := fp.1
    let r2 := fp.2
    let ep : List Char × List Char := match r2 with
      | c :: rr =>
        if c = 'e' || c = 'E' then
          match rr with
          | s :: rr2 =>
            if s = '+' || s = '-' then
              let ds := rr2.takeWhile Char.isDigit
              if ds.isEmpty then ([], r2) else (c :: s :: ds, rr2.dropWhile Char.isDigit)
            else
              let ds := rr.takeWhile Char.isDigit
              if ds.isEmpty then ([], r2) else (c :: ds, rr.dropWhile Char.isDigit)
          | [] => ([], r2)
        else ([], r2)
      | [] => ([], r2)
    let ex := ep.1
    let r3 := ep.2
    if frac.isEmpty && ex.isEmpty then
      let v : Int := Int.ofNat (digitsVal ids)
      some (.int (if neg then -v else v), r3)
    else
      some (.float (String.mk ((if neg then ['-'] else []) ++ ids ++ frac ++ ex)), r3)

/-- Pending container context of the JSON parser. -/
inductive Ctx where
  | inArr (acc : List JValue)
  | inObj (acc : List (String × JValue)) (key : String)

/-- Fuel-driven JSON parser core: `none` mode expects a value, `some v` mode
folds `v` into the innermost pending container.  Fidelity target is the
grammar accepted by Python's `json.loads`. -/
def pjRun : Nat → List Ctx → Option JValue → List Char → Option (JValue × List Char)
  | 0, _, _, _ => none
  | f + 1, stack, some v, l0 =>
    match stack with
    | [] => some (v, l0)
    | .inArr acc :: st =>
      match l0.dropWhile jsonWs with
      | c :: r =>
        if c = ',' then pjRun f (.inArr (acc ++ [v]) :: st) none r
        else if c = ']' then pjRun f st (some (.arr (acc ++ [v]))) r
        else none
      | [] => none
    | .inObj acc key :: st =>
      match l0.dropWhile jsonWs with
      | c :: r =>
        if c = ',' then
          match r.dropWhile jsonWs with
          | c2 :: r2 =>
            if c2 = qCh then
              match pjStr r2 with
              | some (ks, r3) =>
                match r3.dropWhile jsonWs with
                | c3 :: r4 =>
                  if c3 = ':' then
                    pjRun f (.inObj (objInsert acc key v) (String.mk ks) :: st) none r4
                  else none
                | [] => none
              | none => none
            else none
          | [] => none
        else if c = rbCh then pjRun f st (some (.obj (objInsert acc key v))) r
        else none
      | [] => none
  | f + 1, stack, none, l0 =>
    match l0.dropWhile jsonWs with
    | [] => none
    | c :: r =>
      if c = qCh then
        match pjStr r with
        | some (s, r2) => pjRun f stack (some (.str (String.mk s))) r2
        | none => none
      else if c = '[' then
        match r.dropWhile jsonWs with
        | c2 :: r2 =>
          if c2 = ']' then pjRun f stack (some (.arr [])) r2
          else pjRun f (.inArr [] :: stack) none (c2 :: r2)
        | [] => none
      else if c = lbCh then
        match r.dropWhile jsonWs with
        | c2 :: r2 =>
          if c2 = rbCh then pjRun f stack (some (.obj [])) r2
          else if c2 = qCh then
            match pjStr r2 with
            | some (ks, r3) =>
              match r3.dropWhile jsonWs with
              | c3 :: r4 =>
                if c3 = ':' then pjRun f (.inObj [] (String.mk ks) :: stack) none r4
                else none
              | [] => none
            | none => none
          else none
        | [] => none
      else
        match c :: r with
        | 't' :: 'r' :: 'u' :: 'e' :: rr => pjRun f stack (some (.bool true)) rr
        | 'f' :: 'a' :: 'l' :: 's' :: 'e' :: rr => pjRun f stack (some (.bool false)) rr
        | 'n' :: 'u' :: 'l' :: 'l' :: rr => pjRun f stack (some .null) rr
        | 'N' :: 'a' :: 'N' :: rr => pjRun f stack (some (.float "NaN")) rr
        | 'I' :: 'n' :: 'f' :: 'i' :: 'n' :: 'i' :: 't' :: 'y' :: rr =>
            pjRun f stack (some (.float "Infinity")) rr
        | '-' :: 'I' :: 'n' :: 'f' :: 'i' :: 'n' :: 'i' :: 't' :: 'y' :: rr =>
            pjRun f stack (some (.float "-Infinity")) rr
        | _ =>
          match pjNum (c :: r) with
          | some (jv, rr) => pjRun f stack (some jv) rr
          | none => none

/-- Model of `json.loads` wrapped by `safe_json_load` of the source: `none`
where Python raises.  The whole input must be a single value surrounded only
by JSON whitespace. -/
def jsonParse (s : String) : Option JValue :=
  match pjRun (2 * s.length + 4) [] none s.data with
  | some (v, rest) => if (rest.dropWhile jsonWs).isEmpty then some v else none
  | none => none

example : jsonParse "true" = some (.bool true) := rfl
example : jsonParse "42" = some (.int 42) := rfl
example : jsonParse "-3" = some (.int (-3)) := rfl
example : jsonParse "3.25" = some (.float "3.25") := rfl
example : jsonParse "hello" = none := rfl
example : jsonParse " \x7b\x22answer\x22: 4\x7d " = some (.obj [("answer", .int 4)]) := rfl
example : jsonParse "[1, [true], \x22x\x22]" =
    some (.arr [.int 1, .arr [.bool true], .str "x"]) := rfl
example : jsonParse "\x7b\x22a\x22: 1, \x22a\x22: 2\x7d" = some (.obj [("a", .int 2)]) := rfl
example : jsonParse "\x7b\x22url\x22: \x22https://h/a\x22\x7d" =
    some (.obj [("url", .str "https://h/a")]) := rfl

/-- Python substring membership `pat in hay` for strings, and the generic
scanner driving all the leftmost regex searches below. -/
def hasSub (pat : List Char) : List Char → Bool
  | [] => pat.isEmpty
  | c :: rest => pat.isPrefixOf (c :: rest) || hasSub pat rest

/-- Python `key in value`: defined for dicts (key membership), strings
(substring test) and lists (element equality against the string `k`); on any
other operand CPython raises `TypeError`. -/
def pyContains : JValue → String → Except PyErr Bool
  | .obj fs, k => .ok (fs.any (fun pr => pr.1 == k))
  | .str s, k => .ok (hasSub k.data s.data)
  | .arr xs, k => .ok (xs.any (fun x => match x with | .str s => s == k | _ => false))
  | _, _ => .error .typeError

/-- Python `value[k]` with a string subscript: defined for dicts only;
strings and lists need integer indices, so CPython raises `TypeError`. -/
def pyIndexStr : JValue → String → Except PyErr JValue
  | .obj fs, k =>
    match objGet fs k with
    | some v => .ok v
    | none => .error .keyError
  | _, _ => .error .typeError

/-- Suffix check used by the code-fence regex: after the captured `}` the
remaining text must be `\s*` followed by three backticks. -/
def fenceAfterOk (r : List Char) : Bool :=
  (r.dropWhile isPySpace).take 3 == [btCh, btCh, btCh]

/-- Body part of the fence regex, entered just after the backticks (and the
optional `json` tag): `\s*` then a greedy `(\{.*\})` then `\s*` and three
closing backticks.  Greedy `.*` means the capture ends at the largest `}`
whose suffix still matches. -/
def fenceBody (q : List Char) : Option (List Char) :=
  let q1 := q.dropWhile isPySpace
  match q1 with
  | c :: _ =>
    if c = lbCh then
      match ((List.range q1.length).reverse.find? (fun j =>
          decide (1 ≤ j) && (q1.getD j ' ' == rbCh) && fenceAfterOk (q1.drop (j + 1)))) with
      | some j => some (q1.take (j + 1))
      | none => none
    else none
  | [] => none

/-- One anchor attempt of the regex
```(?:json)?\s*(\{.*\})\s*```  (DOTALL, IGNORECASE)
at the head of the input: the alternation prefers consuming `json` (any
case) and falls back to not consuming it. -/
def fenceAt (l : List Char) : Option (List Char) :=
  if l.take 3 == [btCh, btCh, btCh] then
    let r := l.drop 3
    let hasJson := (r.take 4).map Char.toLower == ['j', 's', 'o', 'n']
    match (if hasJson then fenceBody (r.drop 4) else none) with
    | some g => some g
    | none => fenceBody r
  else none

/-- `re.search` for the fence pattern: leftmost anchor wins. -/
def fenceScan : List Char → Option (List Char)
  | [] => none
  | c :: rest =>
    match fenceAt (c :: rest) with
    | some g => some g
    | none => fenceScan rest

/-- `re.search(r"(\{.*\})", text, re.DOTALL)`: greedy `.*` makes the match
run from the first `\x7b` to the last `\x7d` after it, when one exists. -/
def braceMatch (t : List Char) : Option (List Char) :=
  match t.findIdx? (fun c => c == lbCh), t.reverse.findIdx? (fun c => c == rbCh) with
  | some i, some jr =>
    let j := t.length - 1 - jr
    if i < j then some ((t.drop i).take (j - i + 1)) else none
  | _, _ => none

/-- Full match of `-?\d+` (Python `re.fullmatch`). -/
def intLit (l : List Char) : Bool :=
  match l with
  | '-' :: ds => !ds.isEmpty && ds.all Char.isDigit
  | ds => !ds.isEmpty && ds.all Char.isDigit

/-- Value of an `intLit` literal, as `int(stripped)` computes it. -/
def intLitVal (l : List Char) : Int :=
  match l with
  | '-' :: ds => -(Int.ofNat (digitsVal ds))
  | ds => Int.ofNat (digitsVal ds)

/-- Full match of `-?\d+\.\d+` (Python `re.fullmatch`). -/
def floatLit (l : List Char) : Bool :=
  let l1 := match l with | '-' :: r => r | _ => l
  let d1 := l1.takeWhile Char.isDigit
  let r1 := l1.dropWhile Char.isDigit
  !d1.isEmpty &&
    (match r1 with
     | '.' :: d2 => !d2.isEmpty && d2.all Char.isDigit
     | _ => false)

/-- Bare-scalar fallback of `call_aipipe_for_answer` (source lines 106-116):
strip whitespace and then quote characters, accept an integer, float or
boolean literal, otherwise raise `ValueError`. -/
def bareScalar (text : String) : Except PyErr JValue :=
  let stripped := pyStripChars [sqCh] (pyStripChars [qCh] (pyStrip text))
  if intLit stripped.data then .ok (.int (intLitVal stripped.data))
  else if floatLit stripped.data then .ok (.float stripped)
  else if pyLower stripped = "true" then .ok (.bool true)
  else if pyLower stripped = "false" then .ok (.bool false)
  else .error .valueError

/-- Content handling of one `call_aipipe_for_answer` attempt (source lines
91-118): strip, prefer a fenced JSON block, else the first-to-last brace
span, else the raw text; `safe_json_load` it; on a parsed value check
`"answer" not in parsed` (which raises `TypeError` on numbers and booleans)
and either return `parsed["answer"]` or try the bare-scalar fallback. -/
def processContent (content : String) : Except PyErr JValue :=
  let text := pyStrip content
  let jsonText : List Char :=
    match fenceScan text.data with
    | some g => g
    | none =>
      match braceMatch text.data with
      | some g => g
      | none => text.data
  match jsonParse (String.mk jsonText) with
  | some parsed =>
    match pyContains parsed "answer" with
    | .error e => .error e
    | .ok true => pyIndexStr parsed "answer"
    | .ok false => bareScalar text
  | none => bareScalar text

/-- One attempt of the oracle call: the HTTP POST, `raise_for_status` and
content extraction are summarised by the environment as `none` (some
exception was raised) or `some content`; on content the attempt runs
`processContent`. -/
def processAttempt : Option String → Except PyErr JValue
  | none => .error .httpError
  | some content => processContent content

/-- Retry loop of `call_aipipe_for_answer` (source lines 74-128): attempts
are numbered from 1; a failed attempt retries while attempts remain, and
when the budget is exhausted the last exception is re-raised.  Returns the
result together with the number of attempts performed. -/
def aipipeGo (contents : Nat → Option String) :
    Nat → Nat → PyErr → Except PyErr JValue × Nat
  | 0, attempt, lastExc => (.error lastExc, attempt - 1)
  | r + 1, attempt, _ =>
    match processAttempt (contents attempt) with
    | .ok v => (.ok v, attempt)
    | .error e => aipipeGo contents r (attempt + 1) e

/-- Model of `call_aipipe_for_answer(question_text, retries)`: the
environment function `contents` yields attempt number ↦ response content
(`none` for a transport/shape failure).  `for attempt in range(1, retries+2)`
gives `retries + 1` attempts in total. -/
def call_aipipe_for_answer (contents : Nat → Option String) (retries : Nat) :
    Except PyErr JValue × Nat :=
  aipipeGo contents (retries + 1) 1 .valueError

example : processContent "\x60\x60\x60json\n\x7b\x22answer\x22: 42\x7d\n\x60\x60\x60" =
    .ok (.int 42) := rfl
example : processContent "the result is \x7b\x22answer\x22: true\x7d ok" =
    .ok (.bool true) := rfl
example : processContent "\x2242\x22" = .ok (.int 42) := rfl
example : processContent "true" = .error .typeError := rfl
example : processContent "I do not know." = .error .valueError := rfl
example : call_aipipe_for_answer (fun _ => some "\x7b\x22answer\x22: 4\x7d") 2 =
    (.ok (.int 4), 1) := rfl
example : call_aipipe_for_answer (fun _ => some "I do not know.") 2 =
    (.error .valueError, 3) := rfl

/-- Character class `[^\s'\x22<>]` of the submit-URL regexes. -/
def urlChar (c : Char) : Bool :=
  !(isPySpace c || c = sqCh || c = qCh || c = '<' || c = '>')

/-- The literal `/submit`. -/
def submitPat : List Char := "/submit".data

/-- One anchor attempt of heuristic 1,
`https?://[^\s'\x22<>]+/submit[^\s'\x22<>]*`: after the scheme the greedy
run of allowed characters must contain `/submit` at offset at least one; the
whole match then extends to the end of that run. -/
def h1At (l : List Char) : Option (List Char) :=
  let n := if l.take 8 == "https://".data then 8
           else if l.take 7 == "http://".data then 7
           else 0
  if n = 0 then none
  else
    let run := (l.drop n).takeWhile urlChar
    if hasSub submitPat (run.drop 1) then some (l.take n ++ run) else none

/-- `re.search` for heuristic 1: leftmost anchor wins. -/
def h1Scan : List Char → Option (List Char)
  | [] => none
  | c :: rest =>
    match h1At (c :: rest) with
    | some m => some m
    | none => h1Scan rest

/-- Heuristic 1 of `find_submit_url_in_html` (source line 155). -/
def heuristic1 (html : String) : Option String :=
  (h1Scan html.data).map String.mk

/-- One anchor attempt of heuristic 2, `"url"\s*:\s*"([^\x22]+)"`:
returns the capture group. -/
def h2At (l : List Char) : Option (List Char) :=
  if l.take 5 == [qCh, 'u', 'r', 'l', qCh] then
    let r := (l.drop 5).dropWhile isPySpace
    match r with
    | c :: r2 =>
      if c = ':' then
        let r3 := r2.dropWhile isPySpace
        match r3 with
        | c2 :: r4 =>
          if c2 = qCh then
            let cap := r4.takeWhile (fun ch => !(ch == qCh))
            if cap.isEmpty then none
            else if (r4.drop cap.length).isEmpty then none
            else some cap
          else none
        | [] => none
      else none
    | [] => none
  else none

/-- `re.search` for heuristic 2: leftmost anchor wins. -/
def h2Scan : List Char → Option (List Char)
  | [] => none
  | c :: rest =>
    match h2At (c :: rest) with
    | some cap => some cap
    | none => h2Scan rest

/-- Scheme/netloc split of an absolute URL: `some (scheme, rest)` when the
input is `scheme://rest` with an alphabetic scheme. -/
def splitScheme (l : List Char) : Option (List Char × List Char) :=
  let scheme := l.takeWhile Char.isAlpha
  if !scheme.isEmpty && (l.drop scheme.length).take 3 == [':', '/', '/'] then
    some (scheme, l.drop (scheme.length + 3))
  else none

/-- Model of `urllib.parse.urljoin(base, ref)` for the reference shapes this
program produces: every call site passes either a root-relative path (all
three `urljoin` calls receive a ref starting with `/`) or, reachable only
through heuristic 2, a protocol-relative `//...` ref.  A base without a
scheme returns the ref unchanged; a genuinely relative ref (not produced by
any call site) is resolved against the base directory. -/
def urljoinModel (base ref : String) : String :=
  match splitScheme base.data with
  | none => ref
  | some (scheme, rest) =>
    let netloc := rest.takeWhile (fun c => !(c == '/' || c == '?' || c == '#'))
    if ref.data.take 2 == ['/', '/'] then String.mk (scheme ++ ':' :: ref.data)
    else if ref.data.take 1 == ['/'] then
      String.mk (scheme ++ ':' :: '/' :: '/' :: netloc ++ ref.data)
    else
      let path := rest.drop netloc.length
      let pth := path.takeWhile (fun c => !(c == '?' || c == '#'))
      let dir := (pth.reverse.dropWhile (fun c => !(c == '/'))).reverse
      String.mk (scheme ++ ':' :: '/' :: '/' :: netloc ++
        (if dir.isEmpty then ['/'] else dir) ++ ref.data)

/-- Candidate handling of heuristic 2 (source lines 162-175): strip, keep an
absolute URL as is, resolve a root-relative path, and otherwise prefix a
slash before resolving. -/
def startsWithHttp (s : String) : Bool :=
  "http://".data.isPrefixOf s.data || "https://".data.isPrefixOf s.data

/-- Resolution step of heuristic 2. -/
def resolveH2 (capRaw base : String) : String :=
  let cand := pyStrip capRaw
  if startsWithHttp cand then cand
  else if cand.data.take 1 == ['/'] then urljoinModel base cand
  else urljoinModel base (String.mk ('/' :: cand.data))

/-- Heuristic 2 of `find_submit_url_in_html` (source lines 160-175). -/
def heuristic2 (html base : String) : Option String :=
  (h2Scan html.data).map (fun cap => resolveH2 (String.mk cap) base)

/-- `re.search(r"/submit[^\s'\x22<>]*", html)` of heuristic 3: the leftmost
occurrence of `/submit`, extended greedily through allowed characters. -/
def h3Scan : List Char → Option (List Char)
  | [] => none
  | c :: rest =>
    if submitPat.isPrefixOf (c :: rest) then
      some (submitPat ++ ((c :: rest).drop 7).takeWhile urlChar)
    else h3Scan rest

/-- Heuristic 3 of `find_submit_url_in_html` (source lines 178-181). -/
def heuristic3 (html base : String) : Option String :=
  (h3Scan html.data).map (fun m => urljoinModel base (String.mk m))

/-- `find_submit_url_in_html(html, base_url)` (source lines 149-183): the
three heuristics in priority order, first match wins. -/
def find_submit_url_in_html (html base : String) : Option String :=
  match heuristic1 html with
  | some u => some u
  | none =>
    match heuristic2 html base with
    | some u => some u
    | none => heuristic3 html base

example : find_submit_url_in_html "go to https://h/submit now" "https://b/x" =
    some "https://h/submit" := rfl
example : find_submit_url_in_html "say \x22url\x22: \x22/submit?x=1\x22 here" "https://h/a/b" =
    some "https://h/submit?x=1" := rfl
example : find_submit_url_in_html "<form action=/submit>" "https://h/a" =
    some "https://h/submit" := rfl
example : find_submit_url_in_html "nothing here" "https://h/a" = none := rfl

/-- Capture of `re.search(r'atob\(\s*["\x27]([^"\x27]+)["\x27]\s*\)', html)`
anchored at the head of the input. -/
def atobAt (l : List Char) : Option (List Char) :=
  if l.take 5 == ['a', 't', 'o', 'b', '('] then
    let r := (l.drop 5).dropWhile isPySpace
    match r with
    | q :: r2 =>
      if q = qCh || q = sqCh then
        let cap := r2.takeWhile (fun ch => !(ch == qCh || ch == sqCh))
        if cap.isEmpty then none
        else
          match r2.drop cap.length with
          | q2 :: r3 =>
            if q2 = qCh || q2 = sqCh then
              if ((r3.dropWhile isPySpace).take 1) == [')'] then some cap else none
            else none
          | [] => none
      else none
    | [] => none
  else none

/-- `re.search` for the atob pattern: leftmost anchor wins. -/
def atobScan : List Char → Option (List Char)
  | [] => none
  | c :: rest =>
    match atobAt (c :: rest) with
    | some cap => some cap
    | none => atobScan rest

/-- `extract_base64_from_html(html)` (source lines 131-139). -/
def extract_base64_from_html (html : String) : Option String :=
  (atobScan html.data).map String.mk

example : extract_base64_from_html "<script>x = atob(\x22AQID\x22);</script>" =
    some "AQID" := rfl
example : extract_base64_from_html "plain page" = none := rfl

/-- The standard base64 alphabet. -/
def b64Chars : List Char :=
  ['A', 'B', 'C', 'D', 'E', 'F', 'G', 'H', 'I', 'J', 'K', 'L', 'M',
   'N', 'O', 'P', 'Q', 'R', 'S', 'T', 'U', 'V', 'W', 'X', 'Y', 'Z',
   'a', 'b', 'c', 'd', 'e', 'f', 'g', 'h', 'i', 'j', 'k', 'l', 'm',
   'n', 'o', 'p', 'q', 'r', 's', 't', 'u', 'v', 'w', 'x', 'y', 'z',
   '0', '1', '2', '3', '4', '5', '6', '7', '8', '9', '+', '/']

/-- Padding character of base64. -/
def padCh : Char := '='

/-- Alphabet character of a sextet. -/
def sextetChar (n : Nat) : Char := b64Chars.getD n 'A'

/-- Sextet of an alphabet character. -/
def sextetVal (c : Char) : Option Nat := b64Chars.findIdx? (fun d => d == c)

/-- Characters that survive the discarding pass of `base64.b64decode`
(alphabet and padding; everything else is dropped when `validate=False`). -/
def isB64OrPad (c : Char) : Bool := b64Chars.contains c || c = padCh

/-- Standard base64 encoding of a byte list (`base64.b64encode`). -/
def b64encodeBytes : List Nat → List Char
  | [] => []
  | [a] => [sextetChar (a / 4), sextetChar (a % 4 * 16), padCh, padCh]
  | [a, b] => [sextetChar (a / 4), sextetChar (a % 4 * 16 + b / 16),
               sextetChar (b % 16 * 4), padCh]
  | a :: b :: c :: rest =>
    sextetChar (a / 4) :: sextetChar (a % 4 * 16 + b / 16) ::
      sextetChar (b % 16 * 4 + c / 64) :: sextetChar (c % 64) :: b64encodeBytes rest

/-- Group-of-four decoding pass of `base64.b64decode`, after non-alphabet
characters have been discarded: padding is accepted only in the final group,
and a length that is not a multiple of four is an error (`none`), as the
Python call raises `binascii.Error`.  (Data after a padded group, which
would need the full `binascii` quirks, is rejected here; the round-trip
theorems only feed it canonical encodings.) -/
def b64decodeGroups : List Char → Option (List Nat)
  | [] => some []
  | c1 :: c2 :: c3 :: c4 :: rest =>
    match sextetVal c1, sextetVal c2 with
    | some s1, some s2 =>
      if c3 = padCh then
        if c4 = padCh ∧ rest = [] then some [s1 * 4 + s2 / 16] else none
      else
        match sextetVal c3 with
        | some s3 =>
          if c4 = padCh then
            if rest = [] then some [s1 * 4 + s2 / 16, s2 % 16 * 16 + s3 / 4] else none
          else
            match sextetVal c4 with
            | some s4 =>
              match b64decodeGroups rest with
              | some bs => some ((s1 * 4 + s2 / 16) :: (s2 % 16 * 16 + s3 / 4) ::
                                 (s3 % 4 * 64 + s4) :: bs)
              | none => none
            | none => none
        | none => none
    | _, _ => none
  | _ => some []

/-- Byte-level model of `base64.b64decode(s)`. -/
def b64decodeBytesStr (s : String) : Option (List Nat) :=
  b64decodeGroups (s.data.filter isB64OrPad)

/-- String-level base64 encoding. -/
def b64encodeStr (bs : List Nat) : String := String.mk (b64encodeBytes bs)

/-- Continuation byte test of UTF-8. -/
def isCont (b : Nat) : Bool := 128 ≤ b && b < 192

/-- The replacement character U+FFFD. -/
def replCh : Char := Char.ofNat 65533

/-- Model of `bytes.decode("utf-8", errors="replace")`: valid sequences are
decoded, each maximal invalid subpart is replaced by U+FFFD (so a truncated
sequence yields a single replacement and decoding resumes at the offending
byte). -/
def utf8DecodeF : Nat → List Nat → List Char
  | 0, _ => []
  | _, [] => []
  | f + 1, b :: rest =>
    if b < 128 then Char.ofNat b :: utf8DecodeF f rest
    else if 194 ≤ b && b ≤ 223 then
      match rest with
      | [] => [replCh]
      | b2 :: rest2 =>
        if isCont b2 then Char.ofNat ((b - 192) * 64 + (b2 - 128)) :: utf8DecodeF f rest2
        else replCh :: utf8DecodeF f rest
    else if 224 ≤ b && b ≤ 239 then
      match rest with
      | [] => [replCh]
      | b2 :: rest2 =>
        let lo2 := if b = 224 then 160 else 128
        let hi2 := if b = 237 then 159 else 191
        if lo2 ≤ b2 && b2 ≤ hi2 then
          match rest2 with
          | [] => [replCh]
          | b3 :: rest3 =>
            if isCont b3 then
              Char.ofNat ((b - 224) * 4096 + (b2 - 128) * 64 + (b3 - 128)) :: utf8DecodeF f rest3
            else replCh :: utf8DecodeF f rest2
        else replCh :: utf8DecodeF f rest
    else if 240 ≤ b && b ≤ 244 then
      match rest with
      | [] => [replCh]
      | b2 :: rest2 =>
        let lo2 := if b = 240 then 144 else 128
        let hi2 := if b = 244 then 143 else 191
        if lo2 ≤ b2 && b2 ≤ hi2 then
          match rest2 with
          | [] => [replCh]
          | b3 :: rest3 =>
            if isCont b3 then
              match rest3 with
              | [] => [replCh]
              | b4 :: rest4 =>
                if isCont b4 then
                  Char.ofNat ((b - 240) * 262144 + (b2 - 128) * 4096 +
                    (b3 - 128) * 64 + (b4 - 128)) :: utf8DecodeF f rest4
                else replCh :: utf8DecodeF f rest3
            else replCh :: utf8DecodeF f rest2
        else replCh :: utf8DecodeF f rest
    else replCh :: utf8DecodeF f rest

/-- Wrapper supplying sufficient fuel for `utf8DecodeF` (every recursive
call consumes at least one byte). -/
def utf8Decode (bs : List Nat) : List Char := utf8DecodeF (bs.length + 1) bs

/-- `decode_base64_to_html(b64)` (source lines 142-147): decode the base64
text, then decode the bytes as UTF-8 with replacement; `none` where the
Python function returns `None`. -/
def decode_base64_to_html (b64 : String) : Option String :=
  (b64decodeBytesStr b64).map (fun bs => String.mk (utf8Decode bs))

example : b64encodeStr [1, 2, 3] = "AQID" := rfl
example : b64decodeBytesStr "AQID" = some [1, 2, 3] := rfl
example : decode_base64_to_html "aGk=" = some "hi" := rfl

/-- Effective page content (source lines 244-250): decode an embedded atob
payload when one is present and non-empty, else keep the raw body. -/
def effectiveBody (html : String) : String :=
  match extract_base64_from_html html with
  | some b64 =>
    match decode_base64_to_html b64 with
    | some d => if d = "" then html else d
    | none => html
  | none => html

/-- Python truthiness of a JSON value (`if post_json["url"]:`). -/
def pyTruthy : JValue → Bool
  | .null => false
  | .bool b => b
  | .int n => n != 0
  | .float lit =>
    (lit.data.takeWhile (fun c => !(c == 'e' || c == 'E'))).any
      (fun c => c.isDigit && c != '0')
  | .str s => s != ""
  | .arr xs => !xs.isEmpty
  | .obj fs => !fs.isEmpty

/-- Next-URL extraction from a submission response (source line 300):
`isinstance(post_json, dict) and "url" in post_json and post_json["url"]`. -/
def urlField : JValue → Option JValue
  | .obj fs =>
    match objGet fs "url" with
    | some v => if pyTruthy v then some v else none
    | none => none
  | _ => none

/-- Observable network action of one session. -/
inductive Event where
  | get (url : String)
  | oracleCall (question : String)
  | post (submitUrl : String) (payload : JValue)

/-- Per-iteration record: the page URL the iteration worked on and the
network events it performed, in order. -/
structure IterLog where
  pageUrl : String
  events : List Event

/-- Label of the `break`/`return` that ended the loop (the Python code logs
a distinct message at each exit point). -/
inductive Outcome where
  | invalidUrl
  | deadlineExceeded
  | fetchError
  | noQuestion
  | noSubmitUrl
  | oracleError
  | submitError
  | doneNonJson
  | doneNoNext
  | cycleDetected
  | nonStringNext
  | fuelExhausted

/-- Result of one loop iteration. -/
inductive StepRes where
  | stop (log : IterLog) (out : Outcome) (lr : Option JValue)
  | next (log : IterLog) (nextUrl : String) (lr : Option JValue)

/-- The submission payload (source lines 272-277). -/
def mkPayload (email secret : JValue) (url : String) (ans : JValue) : JValue :=
  .obj [("email", email), ("secret", secret), ("url", .str url), ("answer", ans)]

/-- Environment of one session: the clock readings, the network responses
and the HTML text extraction (BeautifulSoup), all external to the modelled
code.  `none` from `fetch`/`oracle`/`post` models a raised exception. -/
structure Env where
  startTime : Nat
  time : Nat → Nat
  fetch : Nat → String → Option String
  extractQuestion : String → String
  oracle : Nat → String → Option JValue
  post : Nat → String → JValue → Option String

/-- One iteration of the `while True` loop of `process_request` (source
lines 232-311), for iteration number `n` with current URL `url` and current
`last_result` `lr`.  The driver's `url` is always a string here: the start
URL is validated, and a truthy non-string `url` field in a response is
modelled by `Outcome.nonStringNext` (in the source the loop would assign it
and the next GET raises, ending the session with no further submission). -/
def stepOnce (env : Env) (email secret : JValue) (n : Nat) (url : String)
    (lr : Option JValue) : StepRes :=
  if env.time n > env.startTime + 150 then .stop ⟨url, []⟩ .deadlineExceeded lr
  else
    match env.fetch n url with
    | none => .stop ⟨url, [.get url]⟩ .fetchError lr
    | some html =>
      let page := effectiveBody html
      let question := env.extractQuestion page
      if question = "" then .stop ⟨url, [.get url]⟩ .noQuestion lr
      else
        match find_submit_url_in_html page url with
        | none => .stop ⟨url, [.get url]⟩ .noSubmitUrl lr
        | some submitUrl =>
          match env.oracle n question with
          | none => .stop ⟨url, [.get url, .oracleCall question]⟩ .oracleError lr
          | some ans =>
            let payload := mkPayload email secret url ans
            match env.post n submitUrl payload with
            | none =>
                .stop ⟨url, [.get url, .oracleCall question, .post submitUrl payload]⟩
                  .submitError lr
            | some respBody =>
              match jsonParse respBody with
              | none =>
                  .stop ⟨url, [.get url, .oracleCall question, .post submitUrl payload]⟩
                    .doneNonJson
                    (some (.obj [("final", .bool true), ("raw_response", .str (pyStrip respBody))]))
              | some pj =>
                match urlField pj with
                | none =>
                    .stop ⟨url, [.get url, .oracleCall question, .post submitUrl payload]⟩
                      .doneNoNext (some pj)
                | some v =>
                  match v with
                  | .str s =>
                    if s = url then
                      .stop ⟨url, [.get url, .oracleCall question, .post submitUrl payload]⟩
                        .cycleDetected (some pj)
                    else
                      .next ⟨url, [.get url, .oracleCall question, .post submitUrl payload]⟩
                        s (some pj)
                  | _ =>
                    .stop ⟨url, [.get url, .oracleCall question, .post submitUrl payload]⟩
                      .nonStringNext (some pj)

/-- The session loop: iterations are numbered from `n`; the fuel bound only
truncates runs the real loop would continue (none of the theorems below
depend on the value of the fuel). -/
def runLoop (env : Env) (email secret : JValue) :
    Nat → Nat → String → Option JValue → List IterLog × Outcome × Option JValue
  | 0, _, _, lr => ([], .fuelExhausted, lr)
  | fuel + 1, n, url, lr =>
    match stepOnce env email secret n url lr with
    | .stop log out lr2 => ([log], out, lr2)
    | .next log nextUrl lr2 =>
      let r := runLoop env email secret fuel (n + 1) nextUrl lr2
      (log :: r.1, r.2.1, r.2.2)

/-- `process_request(data)` (source lines 209-318): validate the start URL
(source lines 217-223), then run the loop.  `startUrl = none` models a
missing or falsy `data.get("url")`.  The function is total: no exception
reaches the caller. -/
def process_request (env : Env) (startUrl : Option String) (email secret : JValue)
    (fuel : Nat) : List IterLog × Outcome × Option JValue :=
  match startUrl with
  | none => ([], .invalidUrl, none)
  | some u =>
    if startsWithHttp u then runLoop env email secret fuel 0 u none
    else ([], .invalidUrl, none)

/-- Sextet encoding and decoding are mutually inverse below 64. -/
theorem sextet_roundtrip : ∀ n, n < 64 → sextetVal (sextetChar n) = some n := by decide

/-- No alphabet character is the padding character. -/
theorem sextet_ne_pad : ∀ n, n < 64 → sextetChar n ≠ padCh := by decide

/-- Alphabet characters survive the discarding pass. -/
theorem isB64OrPad_sextet : ∀ n, n < 64 → isB64OrPad (sextetChar n) = true := by decide

/-- The padding character survives the discarding pass. -/
theorem isB64OrPad_pad : isB64OrPad padCh = true := rfl

/-- Decoding inverts encoding on byte lists. -/
theorem b64_roundtrip : ∀ bs : List Nat, (∀ b ∈ bs, b < 256) →
    b64decodeGroups (b64encodeBytes bs) = some bs
  | [] => fun _ => rfl
  | [a] => fun h => by
    have ha : a < 256 := h a (by simp)
    have e1 := sextet_roundtrip (a / 4) (by omega)
    have e2 := sextet_roundtrip (a % 4 * 16) (by omega)
    simp [b64encodeBytes, b64decodeGroups, e1, e2]
    omega
  | [a, b] => fun h => by
    have ha : a < 256 := h a (by simp)
    have hb : b < 256 := h b (by simp)
    have e1 := sextet_roundtrip (a / 4) (by omega)
    have e2 := sextet_roundtrip (a % 4 * 16 + b / 16) (by omega)
    have e3 := sextet_roundtrip (b % 16 * 4) (by omega)
    have n3 := sextet_ne_pad (b % 16 * 4) (by omega)
    simp [b64encodeBytes, b64decodeGroups, e1, e2, e3, n3]
    omega
  | a :: b :: c :: rest => fun h => by
    have ha : a < 256 := h a (by simp)
    have hb : b < 256 := h b (by simp)
    have hc : c < 256 := h c (by simp)
    have ih := b64_roundtrip rest (fun x hx => h x (by simp [hx]))
    have e1 := sextet_roundtrip (a / 4) (by omega)
    have e2 := sextet_roundtrip (a % 4 * 16 + b / 16) (by omega)
    have e3 := sextet_roundtrip (b % 16 * 4 + c / 64) (by omega)
    have e4 := sextet_roundtrip (c % 64) (by omega)
    have n3 := sextet_ne_pad (b % 16 * 4 + c / 64) (by omega)
    have n4 := sextet_ne_pad (c % 64) (by omega)
    simp [b64encodeBytes, b64decodeGroups, e1, e2, e3, e4, n3, n4, ih]
    omega

/-- The discarding pass of the decoder does not change an encoder output. -/
theorem b64encode_filter : ∀ bs : List Nat, (∀ b ∈ bs, b < 256) →
    (b64encodeBytes bs).filter isB64OrPad = b64encodeBytes bs
  | [] => fun _ => rfl
  | [a] => fun h => by
    have ha : a < 256 := h a (by simp)
    have e1 := isB64OrPad_sextet (a / 4) (by omega)
    have e2 := isB64OrPad_sextet (a % 4 * 16) (by omega)
    simp [b64encodeBytes, List.filter_cons, e1, e2, isB64OrPad_pad]
  | [a, b] => fun h => by
    have ha : a < 256 := h a (by simp)
    have hb : b < 256 := h b (by simp)
    have e1 := isB64OrPad_sextet (a / 4) (by omega)
    have e2 := isB64OrPad_sextet (a % 4 * 16 + b / 16) (by omega)
    have e3 := isB64OrPad_sextet (b % 16 * 4) (by omega)
    simp [b64encodeBytes, List.filter_cons, e1, e2, e3, isB64OrPad_pad]
  | a :: b :: c :: rest => fun h => by
    have ha : a < 256 := h a (by simp)
    have hb : b < 256 := h b (by simp)
    have hc : c < 256 := h c (by simp)
    have ih := b64encode_filter rest (fun x hx => h x (by simp [hx]))
    have e1 := isB64OrPad_sextet (a / 4) (by omega)
    have e2 := isB64OrPad_sextet (a % 4 * 16 + b / 16) (by omega)
    have e3 := isB64OrPad_sextet (b % 16 * 4 + c / 64) (by omega)
    have e4 := isB64OrPad_sextet (c % 64) (by omega)
    simp [b64encodeBytes, List.filter_cons, e1, e2, e3, e4, ih]

/-- String-level round trip: decoding an encoded payload recovers the bytes. -/
theorem b64_str_roundtrip (bs : List Nat) (h : ∀ b ∈ bs, b < 256) :
    b64decodeBytesStr (b64encodeStr bs) = some bs := by
  unfold b64decodeBytesStr b64encodeStr
  rw [show (String.mk (b64encodeBytes bs)).data = b64encodeBytes bs from rfl]
  rw [b64encode_filter bs h]
  exact b64_roundtrip bs h

/-- Heuristic 3 finds a match exactly when `/submit` occurs anywhere in the
input, markup context notwithstanding. -/
theorem h3Scan_isSome : ∀ l : List Char, (h3Scan l).isSome = hasSub submitPat l
  | [] => rfl
  | c :: rest => by
    by_cases hp : submitPat.isPrefixOf (c :: rest)
    · simp [h3Scan, hasSub, hp]
    · simp [h3Scan, hasSub, hp, h3Scan_isSome rest]


/-- Payload well-formedness of one iteration record: every submission the
iteration performed used the exact four-field payload with the session's
`email`/`secret`, the URL field naming the page the same iteration fetched. -/
def payloadOk (email secret : JValue) (log : IterLog) : Prop :=
  ∀ su p, Event.post su p ∈ log.events →
    Event.get log.pageUrl ∈ log.events ∧
      ∃ ans, p = mkPayload email secret log.pageUrl ans

/-- Iteration record of a step result. -/
def stepLog : StepRes → IterLog
  | .stop log _ _ => log
  | .next log _ _ => log

/-- Every branch of one loop iteration is payload well-formed. -/
theorem stepOnce_payloadOk (env : Env) (email secret : JValue) (n : Nat)
    (url : String) (lr : Option JValue) :
    payloadOk email secret (stepLog (stepOnce env email secret n url lr)) := by
  unfold stepOnce
  dsimp only
  repeat' split
  all_goals unfold payloadOk
  all_goals simp only [stepLog]
  all_goals intro su p hp
  all_goals simp at hp
  all_goals obtain ⟨hsu, hpv⟩ := hp
  all_goals subst hpv
  all_goals exact ⟨by simp, _, rfl⟩

/-- Every iteration record of a session run is payload well-formed. -/
theorem runLoop_payloadOk (env : Env) (email secret : JValue) :
    ∀ fuel n url lr log, log ∈ (runLoop env email secret fuel n url lr).1 →
      payloadOk email secret log := by
  intro fuel
  induction fuel with
  | zero => intro n url lr log h; simp [runLoop] at h
  | succ f ih =>
    intro n url lr log h
    simp only [runLoop] at h
    rcases hs : stepOnce env email secret n url lr with ⟨l1, o, lr2⟩ | ⟨l1, nu, lr2⟩
    · rw [hs] at h
      simp at h
      subst h
      have hstep := stepOnce_payloadOk env email secret n url lr
      rw [hs] at hstep
      simpa [stepLog] using hstep
    · rw [hs] at h
      simp at h
      rcases h with h | h
      · subst h
        have hstep := stepOnce_payloadOk env email secret n url lr
        rw [hs] at hstep
        simpa [stepLog] using hstep
      · exact ih (n + 1) nu lr2 log h

/-- Session environment of an entry page: the fetched body carries a submit
URL but no question text (on `<body></body>...` BeautifulSoup finds a `body`
element whose text is empty, so `extract_question_text` returns the empty
string). -/
def envC1 : Env where
  startTime := 0
  time := fun _ => 0
  fetch := fun _ _ => some "<body></body>https://h/submit"
  extractQuestion := fun _ => ""
  oracle := fun _ _ => none
  post := fun _ _ _ => none

/-- Session environment whose submission response echoes the current URL. -/
def envC3 : Env where
  startTime := 0
  time := fun _ => 0
  fetch := fun _ _ => some "Question: 2+2? \x22url\x22: \x22/submit\x22"
  extractQuestion := fun _ => "2+2?"
  oracle := fun _ _ => some (.int 4)
  post := fun _ _ _ => some "\x7b\x22url\x22: \x22https://h/a\x22\x7d"

/-- Session environment whose submission response is plain text. -/
def envC5 : Env where
  startTime := 0
  time := fun _ => 0
  fetch := fun _ _ => some "Question: 2+2? \x22url\x22: \x22/submit\x22"
  extractQuestion := fun _ => "2+2?"
  oracle := fun _ _ => some (.int 4)
  post := fun _ _ _ => some "Quiz complete!"

/-- Session environment for a single full iteration ending in completion. -/
def envC9 : Env where
  startTime := 0
  time := fun _ => 0
  fetch := fun _ _ => some "Question: 2+2? \x22url\x22: \x22/submit\x22"
  extractQuestion := fun _ => "2+2?"
  oracle := fun _ _ => some (.int 4)
  post := fun _ _ _ => some "done"

/-- Claim C1 (counterexample): on an effective page whose extracted question
text is empty but whose submit URL resolves, the driver does NOT proceed to
submit a sentinel answer: the run stops after the single GET with the
no-question outcome, performing no oracle call and no submission, although
`find_submit_url_in_html` would have resolved a submit target on that very
page.  This refutes the claim, which asserts a placeholder submission. -/
theorem c1_entry_page_counterexample :
    process_request envC1 (some "https://h/a") (.str "e") (.str "s") 5 =
      ([⟨"https://h/a", [.get "https://h/a"]⟩], .noQuestion, none) ∧
    find_submit_url_in_html "<body></body>https://h/submit" "https://h/a" =
      some "https://h/submit" ∧
    (∀ su p, Event.post su p ∉ [Event.get "https://h/a"]) :=
  ⟨rfl, rfl, by intro su p h; simp at h⟩

/-- Claim C1 (amended): whenever the extracted question text of the
effective page is empty, the chain driver aborts the session with the
no-question outcome — without invoking the oracle and without submitting
anything — even when a submit URL would resolve (source line 254 breaks out
of the loop before the submit-target resolution). -/
theorem c1_empty_question_aborts (env : Env) (email secret : JValue) (n fuel : Nat)
    (url html : String) (lr : Option JValue)
    (htime : ¬ env.time n > env.startTime + 150)
    (hfetch : env.fetch n url = some html)
    (hq : env.extractQuestion (effectiveBody html) = "") :
    runLoop env email secret (fuel + 1) n url lr =
      ([⟨url, [.get url]⟩], .noQuestion, lr) := by
  simp only [runLoop, stepOnce, hfetch, hq, if_neg htime]
  simp

/-- Witness instantiating `c1_empty_question_aborts` on a concrete page. -/
theorem c1_empty_question_aborts_witness :
    runLoop envC1 (.str "e") (.str "s") 1 0 "https://h/a" none =
      ([⟨"https://h/a", [.get "https://h/a"]⟩], .noQuestion, none) :=
  c1_empty_question_aborts envC1 (.str "e") (.str "s") 0 0 "https://h/a"
    "<body></body>https://h/submit" none (by decide) rfl rfl

/-- Claim C2 (code bug): on a bare scalar oracle response such as `true` or
`42`, `json.loads` succeeds and returns a non-dict, after which the check
`"answer" not in parsed` raises `TypeError`; the bare-scalar fallback (whose
own comment names `42` and `true` as its examples) is never reached, and
after the retries `call_aipipe_for_answer` re-raises instead of returning
the scalar. -/
theorem c2_bare_scalar_type_error :
    processContent "true" = .error .typeError ∧
    processContent "42" = .error .typeError ∧
    call_aipipe_for_answer (fun _ => some "true") 2 = (.error .typeError, 3) :=
  ⟨rfl, rfl, rfl⟩

/-- Claim C3: whenever an iteration's submission response parses as JSON and
its `url` field equals the current URL, the session ends with the
cycle-detected outcome at that very iteration: the run's remaining trace is
that single iteration (one GET, one oracle call, one POST), so no further
fetch is ever issued, and `last_result` keeps the echoing response. -/
theorem c3_cycle_guard (env : Env) (email secret : JValue) (n fuel : Nat)
    (url html question su respBody : String) (ans pj : JValue) (lr : Option JValue)
    (htime : ¬ env.time n > env.startTime + 150)
    (hfetch : env.fetch n url = some html)
    (hq : env.extractQuestion (effectiveBody html) = question)
    (hqne : question ≠ "")
    (hsu : find_submit_url_in_html (effectiveBody html) url = some su)
    (hor : env.oracle n question = some ans)
    (hpost : env.post n su (mkPayload email secret url ans) = some respBody)
    (hjson : jsonParse respBody = some pj)
    (hurl : urlField pj = some (.str url)) :
    runLoop env email secret (fuel + 1) n url lr =
      ([⟨url, [.get url, .oracleCall question, .post su (mkPayload email secret url ans)]⟩],
       .cycleDetected, some pj) := by
  subst hq
  simp only [runLoop, stepOnce, hfetch, hsu, hor, hpost, hjson, hurl, if_neg htime]
  simp [hqne]

/-- Witness instantiating `c3_cycle_guard` on a concrete echoing server. -/
theorem c3_cycle_guard_witness :
    runLoop envC3 (.str "e") (.str "s") 3 0 "https://h/a" none =
      ([⟨"https://h/a",
         [.get "https://h/a", .oracleCall "2+2?",
          .post "https://h/submit" (mkPayload (.str "e") (.str "s") "https://h/a" (.int 4))]⟩],
       .cycleDetected, some (.obj [("url", .str "https://h/a")])) :=
  c3_cycle_guard envC3 (.str "e") (.str "s") 0 2 "https://h/a"
    "Question: 2+2? \x22url\x22: \x22/submit\x22" "2+2?" "https://h/submit"
    "\x7b\x22url\x22: \x22https://h/a\x22\x7d" (.int 4)
    (.obj [("url", .str "https://h/a")]) none
    (by decide) rfl rfl (by decide) rfl rfl rfl rfl rfl

/-- Claim C4: when a body contains both an absolute `/submit` URL (heuristic
1 matches) and a JSON-like `url` field resolving elsewhere (heuristic 2
would match with a different result), the resolver returns the absolute URL:
the heuristics are tried in strict priority order with first match
returned. -/
theorem c4_heuristic_priority (html base u v : String)
    (h1 : heuristic1 html = some u)
    (h2 : heuristic2 html base = some v) (hne : v ≠ u) :
    find_submit_url_in_html html base = some u := by
  simp [find_submit_url_in_html, h1]

/-- Witness instantiating `c4_heuristic_priority` on a concrete body. -/
theorem c4_heuristic_priority_witness :
    find_submit_url_in_html
      "see https://quiz.example/submit then \x22url\x22: \x22https://other.example/next\x22"
      "https://b/" = some "https://quiz.example/submit" :=
  c4_heuristic_priority
    "see https://quiz.example/submit then \x22url\x22: \x22https://other.example/next\x22"
    "https://b/" "https://quiz.example/submit" "https://other.example/next"
    rfl rfl (by decide)

/-- Claim C5: whenever an iteration's submission response does not parse as
JSON, the session ends with the non-JSON completion outcome (not an error
outcome) and `last_result` records the object with the `final` marker and
the stripped raw response text. -/
theorem c5_nonjson_completion (env : Env) (email secret : JValue) (n fuel : Nat)
    (url html question su respBody : String) (ans : JValue) (lr : Option JValue)
    (htime : ¬ env.time n > env.startTime + 150)
    (hfetch : env.fetch n url = some html)
    (hq : env.extractQuestion (effectiveBody html) = question)
    (hqne : question ≠ "")
    (hsu : find_submit_url_in_html (effectiveBody html) url = some su)
    (hor : env.oracle n question = some ans)
    (hpost : env.post n su (mkPayload email secret url ans) = some respBody)
    (hjson : jsonParse respBody = none) :
    runLoop env email secret (fuel + 1) n url lr =
      ([⟨url, [.get url, .oracleCall question, .post su (mkPayload email secret url ans)]⟩],
       .doneNonJson,
       some (.obj [("final", .bool true), ("raw_response", .str (pyStrip respBody))])) := by
  subst hq
  simp only [runLoop, stepOnce, hfetch, hsu, hor, hpost, hjson, if_neg htime]
  simp [hqne]

/-- Witness instantiating `c5_nonjson_completion` on a concrete plain-text
response. -/
theorem c5_nonjson_completion_witness :
    runLoop envC5 (.str "e") (.str "s") 3 0 "https://h/a" none =
      ([⟨"https://h/a",
         [.get "https://h/a", .oracleCall "2+2?",
          .post "https://h/submit" (mkPayload (.str "e") (.str "s") "https://h/a" (.int 4))]⟩],
       .doneNonJson,
       some (.obj [("final", .bool true), ("raw_response", .str "Quiz complete!")])) :=
  c5_nonjson_completion envC5 (.str "e") (.str "s") 0 2 "https://h/a"
    "Question: 2+2? \x22url\x22: \x22/submit\x22" "2+2?" "https://h/submit"
    "Quiz complete!" (.int 4) none
    (by decide) rfl rfl (by decide) rfl rfl rfl rfl

/-- Claim C6: for every valid base64 payload embedded via the `atob`
pattern, decoding and then re-encoding recovers the payload: the decode step
is a bijection on canonically encoded inputs. -/
theorem c6_decode_reencode (html payload : String) (bs : List Nat)
    (hbytes : ∀ b ∈ bs, b < 256)
    (hembed : extract_base64_from_html html = some payload)
    (hvalid : payload = b64encodeStr bs) :
    Option.map b64encodeStr (b64decodeBytesStr payload) = some payload := by
  subst hvalid
  rw [b64_str_roundtrip bs hbytes]
  rfl

/-- Witness instantiating `c6_decode_reencode` on the payload `AQID`
(bytes 1, 2, 3). -/
theorem c6_decode_reencode_witness :
    Option.map b64encodeStr (b64decodeBytesStr "AQID") = some "AQID" :=
  c6_decode_reencode "x = atob(\x22AQID\x22);" "AQID" [1, 2, 3] (by decide) rfl rfl

/-- Claim C7: when every attempt's content fails to process (neither
extractable JSON with an `answer` field nor an accepted bare literal), the
oracle client performs exactly the budget of `retries + 1 = 3` attempts with
the default `retries = 2` and then fails with the last attempt's error — it
neither returns a value nor retries further. -/
theorem c7_retry_budget (contents : Nat → Option String) (errs : Nat → PyErr)
    (h : ∀ i, processAttempt (contents i) = .error (errs i)) :
    call_aipipe_for_answer contents 2 = (.error (errs 3), 3) := by
  simp [call_aipipe_for_answer, aipipeGo, h]

/-- Witness instantiating `c7_retry_budget` on unparsable prose. -/
theorem c7_retry_budget_witness :
    call_aipipe_for_answer (fun _ => some "I cannot tell.") 2 =
      (.error .valueError, 3) :=
  c7_retry_budget (fun _ => some "I cannot tell.") (fun _ => .valueError)
    (fun _ => rfl)

/-- Claim C8 (counterexample): an occurrence of `/submit` enclosed within
markup tag delimiters DOES match heuristic 3 (the claim asserts it does
not): heuristics 1 and 2 fail on this body, yet the resolver returns the
resolved `/submit` fragment found inside the `<a>` tag. -/
theorem c8_markup_counterexample :
    heuristic1 "<p><a href=/submit></p>" = none ∧
    heuristic2 "<p><a href=/submit></p>" "https://h/a" = none ∧
    find_submit_url_in_html "<p><a href=/submit></p>" "https://h/a" =
      some "https://h/submit" :=
  ⟨rfl, rfl, rfl⟩

/-- Claim C8 (amended): when heuristics 1 and 2 fail, the resolver falls to
heuristic 3, which matches exactly when `/submit` occurs anywhere in the
body — markup context notwithstanding; the character class
`[^\s'\x22<>]*` only limits how far the match extends to the right, it does
not exclude occurrences inside tags. -/
theorem c8_fallback_any_occurrence (html base : String)
    (h1 : heuristic1 html = none) (h2 : heuristic2 html base = none) :
    find_submit_url_in_html html base = heuristic3 html base ∧
    (find_submit_url_in_html html base).isSome = hasSub submitPat html.data := by
  have hf : find_submit_url_in_html html base = heuristic3 html base := by
    simp [find_submit_url_in_html, h1, h2]
  refine ⟨hf, ?_⟩
  rw [hf]
  rcases hcase : h3Scan html.data with _ | m <;>
    simp [heuristic3, hcase, ← h3Scan_isSome html.data]

/-- Witness instantiating `c8_fallback_any_occurrence` on a fragment inside
a tag. -/
theorem c8_fallback_any_occurrence_witness :
    find_submit_url_in_html "<div data=/submit!></div>" "https://h/b" =
      heuristic3 "<div data=/submit!></div>" "https://h/b" ∧
    (find_submit_url_in_html "<div data=/submit!></div>" "https://h/b").isSome =
      hasSub submitPat "<div data=/submit!></div>".data :=
  c8_fallback_any_occurrence "<div data=/submit!></div>" "https://h/b" rfl rfl

/-- Claim C9: every submission POST of a session carries exactly the
four-field payload `email, secret, url, answer` where `email`/`secret` are
the values the session started with (they are threaded unchanged through the
whole run) and `url` is the URL of the page the same iteration fetched (the
current URL is replaced only after the submission completes). -/
theorem c9_payload_invariant (env : Env) (startUrl : Option String)
    (email secret : JValue) (fuel : Nat) (log : IterLog)
    (hlog : log ∈ (process_request env startUrl email secret fuel).1)
    (su : String) (p : JValue) (hp : Event.post su p ∈ log.events) :
    Event.get log.pageUrl ∈ log.events ∧
      ∃ ans, p = mkPayload email secret log.pageUrl ans := by
  unfold process_request at hlog
  cases startUrl with
  | none => simp at hlog
  | some u =>
    dsimp only at hlog
    by_cases hu : startsWithHttp u
    · rw [if_pos hu] at hlog
      exact runLoop_payloadOk env email secret fuel 0 u none log hlog su p hp
    · rw [if_neg hu] at hlog
      simp at hlog

/-- Iteration record of the single iteration run under `envC9`. -/
def c9LogW : IterLog :=
  ⟨"https://h/a",
   [.get "https://h/a", .oracleCall "2+2?",
    .post "https://h/submit" (mkPayload (.str "e") (.str "s") "https://h/a" (.int 4))]⟩

/-- Witness instantiating `c9_payload_invariant` on a concrete session. -/
theorem c9_payload_invariant_witness :
    Event.get c9LogW.pageUrl ∈ c9LogW.events ∧
      ∃ ans, mkPayload (.str "e") (.str "s") "https://h/a" (.int 4) =
        mkPayload (.str "e") (.str "s") c9LogW.pageUrl ans :=
  c9_payload_invariant envC9 (some "https://h/a") (.str "e") (.str "s") 2 c9LogW
    (by rw [show (process_request envC9 (some "https://h/a") (.str "e") (.str "s") 2).1 =
          [c9LogW] from rfl]
        simp)
    "https://h/submit" (mkPayload (.str "e") (.str "s") "https://h/a" (.int 4))
    (List.Mem.tail _ (List.Mem.tail _ (List.Mem.head _)))

/-- Claim C10: when the job's start URL is absent, or does not begin with
`http://` or `https://`, the session returns immediately with the
invalid-URL outcome: the trace is empty (no fetch, no oracle call, no
submission), `last_result` is never set, and — the model being a total
function — no exception reaches the caller. -/
theorem c10_invalid_url (env : Env) (startUrl : Option String) (email secret : JValue)
    (fuel : Nat) (h : ∀ s, startUrl = some s → startsWithHttp s = false) :
    process_request env startUrl email secret fuel = ([], .invalidUrl, none) := by
  unfold process_request
  cases startUrl with
  | none => rfl
  | some s =>
    have hs := h s rfl
    simp [hs]

/-- Witness instantiating `c10_invalid_url` on a non-HTTP scheme. -/
theorem c10_invalid_url_witness :
    process_request envC1 (some "ftp://x") (.str "e") (.str "s") 3 =
      ([], .invalidUrl, none) :=
  c10_invalid_url envC1 (some "ftp://x") (.str "e") (.str "s") 3
    (fun s hs => by cases hs; rfl)
